import Mathlib

/-!
Verification development for the `atlas-test-client` transaction-relay test
harness (`src/build-transactions.ts`, `src/setup-keypair.ts`).

The TypeScript source is shallowly embedded:
* JavaScript `number` values (IEEE-754 binary64) are modelled exactly as
  dyadic fractions `m / 2^s` over `ℕ` (`Dbl`), with round-to-nearest-even
  at 53 significant bits (`roundFrac`); the model is faithful for positive
  normal values below `2^53`, which covers every literal and product the
  program computes (`0.01`, `0.02`, `0.03`, `1e9` and their products).
* JavaScript `bigint` values are `ℤ` (or `ℕ` where provably non-negative);
  the `BigInt(x)` conversion of a number, which throws on non-integral
  input, is `Option`-valued (`jsBigIntOfDbl`).
* Fallible computations return `Option`.
* External capabilities (key generation, signing, base58 wire encoding,
  network transport, the file system) are parameters of the embedded
  functions; the data the program hands to them is modelled in full.
-/

/- ### IEEE-754 binary64 model over ℕ -/

/-- Fuel-bounded base-2 integer logarithm: for `1 ≤ n` and enough fuel this
is `⌊log₂ n⌋`.  Structural recursion on the fuel keeps it kernel-reducible. -/
def ilog2 : ℕ → ℕ → ℕ
  | 0, _ => 0
  | f + 1, n => if n ≤ 1 then 0 else ilog2 f (n / 2) + 1

/-- A binary64 value `m / 2^s`, kept as an exact dyadic fraction.  The
representation is not required to be canonical; value equality is expressed
by cross-multiplication (`Dbl.eqFrac`). -/
structure Dbl where
  m : ℕ
  s : ℕ
  deriving DecidableEq, Repr

/-- The dyadic value `x` equals the fraction `a / b`. -/
def Dbl.eqFrac (x : Dbl) (a b : ℕ) : Prop := x.m * b = a * 2 ^ x.s

instance (x : Dbl) (a b : ℕ) : Decidable (x.eqFrac a b) := by
  unfold Dbl.eqFrac; infer_instance

/-- Round the positive fraction `a / b` to the nearest binary64 value
(round-to-nearest, ties to even), returned as an exact dyadic fraction.
`e` is `200 + ⌊log₂ (a/b)⌋`, so `t = 252 - e` is the number of fractional
bits giving a 53-bit significand.  Faithful for `2^-200 ≤ a/b < 2^53`,
which covers all uses in this development. -/
def roundFrac (a b : ℕ) : Dbl :=
  let e : ℕ := ilog2 600 (a * 2 ^ 200 / b)
  let t : ℕ := 252 - e
  let n : ℕ := a * 2 ^ t
  let q : ℕ := n / b
  let r : ℕ := n % b
  let m : ℕ :=
    if 2 * r < b then q
    else if b < 2 * r then q + 1
    else if q % 2 = 0 then q else q + 1
  ⟨m, t⟩

/-- The binary64 value denoted by the decimal literal `a / b` (JavaScript
parses a numeric literal to the nearest double). -/
def jsDouble (a b : ℕ) : Dbl := roundFrac a b

/-- IEEE binary64 multiplication: the exact product of the two dyadic
operands, rounded to the nearest representable value. -/
def dmul (x y : Dbl) : Dbl := roundFrac (x.m * y.m) (2 ^ (x.s + y.s))

/-- JavaScript `BigInt(x)` on a non-negative number `x`: the exact integer
when `x` is integral, otherwise a thrown `RangeError`, modelled as `none`. -/
def jsBigIntOfDbl (x : Dbl) : Option ℕ :=
  if x.m % 2 ^ x.s = 0 then some (x.m / 2 ^ x.s) else none

/- ### The program's numeric constants -/

/-- Constant `LAMPORTS_PER_SOL` from `@solana/web3.js`: the JavaScript number `1e9`
(an exactly representable double). -/
def lamportsPerSol : Dbl := jsDouble 1000000000 1

/-- The double denoted by the literal `0.01`. -/
def lit001 : Dbl := jsDouble 1 100

/-- The double denoted by the literal `0.02`. -/
def lit002 : Dbl := jsDouble 2 100

/-- The double denoted by the literal `0.03`. -/
def lit003 : Dbl := jsDouble 3 100

/-- Amount `BigInt(0.01 * LAMPORTS_PER_SOL)` — the `valid-single` amount
(`build-transactions.ts:209`). -/
def amountValidSingle : Option ℕ := jsBigIntOfDbl (dmul lit001 lamportsPerSol)

/-- Amount `BigInt(LAMPORTS_PER_SOL * 0.03)` — the `invalid-single` amount
(`build-transactions.ts:224`). -/
def amountInvalidSingle : Option ℕ := jsBigIntOfDbl (dmul lamportsPerSol lit003)

/-- Amount `BigInt(LAMPORTS_PER_SOL * 0.01)` — the first bundle amount
(`build-transactions.ts:239,262,285`). -/
def amountBundle1 : Option ℕ := jsBigIntOfDbl (dmul lamportsPerSol lit001)

/-- Amount `BigInt(LAMPORTS_PER_SOL * 0.02)` — the second bundle amount
(`build-transactions.ts:240,263,286`). -/
def amountBundle2 : Option ℕ := jsBigIntOfDbl (dmul lamportsPerSol lit002)

/- ### Transaction model (`createTestTransaction`, build-transactions.ts:50-85) -/

/-- An opaque account public key, represented by its base58 form. -/
abbrev Pubkey := String

/-- Key `SystemProgram.programId` of the Solana system program
(base58 `11111111111111111111111111111111`). -/
def systemProgramId : Pubkey := "11111111111111111111111111111111"

/-- The `MessageV0` header literal from `build-transactions.ts:63-67`. -/
structure MessageHeader where
  numRequiredSignatures : ℕ
  numReadonlySignedAccounts : ℕ
  numReadonlyUnsignedAccounts : ℕ
  deriving DecidableEq, Repr

/-- A compiled instruction: program-id index, operand account indices, and
raw instruction data bytes. -/
structure CompiledInstruction where
  programIdIndex : ℕ
  accountKeyIndexes : List ℕ
  data : List ℕ
  deriving DecidableEq, Repr

/-- The `MessageV0` structure the builder constructs
(`build-transactions.ts:62-82`). -/
structure MessageV0 where
  header : MessageHeader
  staticAccountKeys : List Pubkey
  recentBlockhash : String
  compiledInstructions : List CompiledInstruction
  addressTableLookups : List Unit
  deriving DecidableEq, Repr

/-- A `VersionedTransaction` wrapping a v0 message.  Signing is an external
capability (spec §1) and adds signatures without touching the message, so
the embedded transaction is its message. -/
structure VersionedTransaction where
  message : MessageV0
  deriving DecidableEq, Repr

/-- Account `i` of a compiled message is a signer iff it lies in the first
`numRequiredSignatures` static keys (Solana v0 message semantics). -/
def MessageV0.isSigner (msg : MessageV0) (i : ℕ) : Bool :=
  i < msg.header.numRequiredSignatures

/-- Account `i` of a compiled message is writable iff it is a signer outside
the trailing read-only signed range, or a non-signer outside the trailing
read-only unsigned range (Solana v0 message semantics). -/
def MessageV0.isWritable (msg : MessageV0) (i : ℕ) : Bool :=
  if i < msg.header.numRequiredSignatures then
    i < msg.header.numRequiredSignatures - msg.header.numReadonlySignedAccounts
  else
    i < msg.staticAccountKeys.length - msg.header.numReadonlyUnsignedAccounts

/-- The `k` little-endian bytes of `n` (the fixed-width encoding used by the
system program's instruction data). -/
def leBytes : ℕ → ℕ → List ℕ
  | 0, _ => []
  | k + 1, n => n % 256 :: leBytes k (n / 256)

/-- Data of `SystemProgram.transfer`: the u32 LE instruction tag 2
(transfer) followed by the u64 LE lamport amount. -/
def transferInstructionData (lamports : ℕ) : List ℕ :=
  leBytes 4 2 ++ leBytes 8 lamports

/-- Function `createTestTransaction` (build-transactions.ts:50-85): a v0 message
with header `(1, 0, 1)`, static keys `[from, to, systemProgram]`, the given
blockhash taken as-is (no validity check), and one compiled instruction
`(programIdIndex 2, operands [0, 1], transfer data)`. -/
def createTestTransaction (fromPubkey toPubkey : Pubkey) (amount : ℕ)
    (blockhash : String) : VersionedTransaction :=
  ⟨{ header := ⟨1, 0, 1⟩
     staticAccountKeys := [fromPubkey, toPubkey, systemProgramId]
     recentBlockhash := blockhash
     compiledInstructions := [⟨2, [0, 1], transferInstructionData amount⟩]
     addressTableLookups := [] }⟩

/- ### Relay client requests (build-transactions.ts:87-142) -/

/-- The options object `\x7b skipPreflight: true, encoding: "base58" \x7d`
passed as the final JSON-RPC parameter. -/
structure RpcOptions where
  skipPreflight : Bool
  encoding : String
  deriving DecidableEq, Repr

/-- The `params` member: one encoded payload plus options for
`sendTransaction`, a list of encoded payloads plus options for
`sendTransactionBundle`. -/
inductive RpcParams where
  | single (payload : String) (opts : RpcOptions)
  | bundle (payloads : List String) (opts : RpcOptions)
  deriving DecidableEq, Repr

/-- A JSON-RPC-shaped POST body. -/
structure RpcRequest where
  jsonrpc : String
  id : ℕ
  method : String
  params : RpcParams
  deriving DecidableEq, Repr

/-- The request body `sendTransaction` posts (build-transactions.ts:92-103).
`encode` stands for the external wire encoding `bs58.encode ∘ serialize`. -/
def sendTransactionRequest (encode : VersionedTransaction → String)
    (tx : VersionedTransaction) : RpcRequest :=
  { jsonrpc := "2.0"
    id := 1
    method := "sendTransaction"
    params := .single (encode tx) ⟨true, "base58"⟩ }

/-- The request body `sendTransactionBundle` posts
(build-transactions.ts:119-133): every transaction is encoded the same way
and the encoded payloads are sent as one ordered list. -/
def sendTransactionBundleRequest (encode : VersionedTransaction → String)
    (txs : List VersionedTransaction) : RpcRequest :=
  { jsonrpc := "2.0"
    id := 1
    method := "sendTransactionBundle"
    params := .bundle (txs.map encode) ⟨true, "base58"⟩ }

/- ### Scenario construction (`runTest`, build-transactions.ts:167-306) -/

/-- The five test modes (build-transactions.ts:38-43). -/
inductive TestMode where
  | validSingle
  | invalidSingle
  | validBundle
  | invalidBundleFirst
  | invalidBundleSecond
  deriving DecidableEq, Repr

/-- The fixed stale-blockhash sentinel literal used for every leg a
scenario marks stale (build-transactions.ts:232,272,301). -/
def staleBlockhash : String := "11111111111111111111111111111111"

/-- Constant `txnFee = BigInt(5000)` (build-transactions.ts:205). -/
def txnFee : ℤ := 5000

/-- The outcome of the scenario `switch` (build-transactions.ts:198-306):
the expected sender delta, the expected per-recipient deltas (indexed like
`recipients`), and the transactions built for the scenario. -/
structure ScenarioSetup where
  expectedSenderChange : ℤ
  expectedRecipientChanges : List ℤ
  transactions : List VersionedTransaction
  deriving DecidableEq, Repr

/-- The construction phase of `runTest` (build-transactions.ts:198-306):
starting from zero expected changes, each case computes its amounts (a
`BigInt` conversion that can throw, hence `Option`), accumulates the
expected deltas, and builds the transactions.  `senderPk` is the loaded
keypair's public key, `recipientPk i` the freshly generated recipient keys
(external randomness), `recentBlockhash` the live blockhash fetched once at
line 204. -/
def runTestBuild (mode : TestMode) (senderPk : Pubkey)
    (recipientPk : ℕ → Pubkey) (recentBlockhash : String) :
    Option ScenarioSetup :=
  match mode with
  | .validSingle =>
      amountValidSingle.bind fun a =>
        some { expectedSenderChange := -((a : ℤ) + txnFee)
               expectedRecipientChanges := [(a : ℤ)]
               transactions :=
                 [createTestTransaction senderPk (recipientPk 0) a
                   recentBlockhash] }
  | .invalidSingle =>
      amountInvalidSingle.bind fun a =>
        some { expectedSenderChange := -((a : ℤ) + txnFee)
               expectedRecipientChanges := [(a : ℤ)]
               transactions :=
                 [createTestTransaction senderPk (recipientPk 0) a
                   staleBlockhash] }
  | .validBundle =>
      amountBundle1.bind fun a1 =>
        amountBundle2.bind fun a2 =>
          some { expectedSenderChange := -((a1 : ℤ) + (a2 : ℤ) + txnFee * 2)
                 expectedRecipientChanges := [(a1 : ℤ), (a2 : ℤ)]
                 transactions :=
                   [createTestTransaction senderPk (recipientPk 0) a1
                      recentBlockhash,
                    createTestTransaction senderPk (recipientPk 1) a2
                      recentBlockhash] }
  | .invalidBundleFirst =>
      amountBundle1.bind fun a1 =>
        amountBundle2.bind fun a2 =>
          some { expectedSenderChange := -((a1 : ℤ) + (a2 : ℤ) + txnFee * 2)
                 expectedRecipientChanges := [(a1 : ℤ), (a2 : ℤ)]
                 transactions :=
                   [createTestTransaction senderPk (recipientPk 0) a1
                      staleBlockhash,
                    createTestTransaction senderPk (recipientPk 1) a2
                      recentBlockhash] }
  | .invalidBundleSecond =>
      amountBundle1.bind fun a1 =>
        amountBundle2.bind fun a2 =>
          some { expectedSenderChange := -((a1 : ℤ) + (a2 : ℤ) + txnFee * 2)
                 expectedRecipientChanges := [(a1 : ℤ), (a2 : ℤ)]
                 transactions :=
                   [createTestTransaction senderPk (recipientPk 0) a1
                      recentBlockhash,
                    createTestTransaction senderPk (recipientPk 1) a2
                      staleBlockhash] }

/- ### Entry point and configuration gating (build-transactions.ts:19-24,415-441) -/

/-- JavaScript truthiness of an optional environment string: absent
(`undefined`) and the empty string are falsy. -/
def jsTruthy : Option String → Bool
  | none => false
  | some s => !(s = "")

/-- What the process does, abstracted to the decision points the spec talks
about: abort with a configuration error, print usage and exit with the
given code, or run the named scenario (the only constructor that reaches
the network). -/
inductive ProgramResult where
  | configError (exitCode : ℕ) (msg : String)
  | usageExit (exitCode : ℕ) (text : String)
  | runScenario (mode : String)
  deriving DecidableEq, Repr

/-- The five valid scenario-name strings (build-transactions.ts:420-426). -/
def validModes : List String :=
  ["valid-single", "invalid-single", "valid-bundle", "invalid-bundle-first",
   "invalid-bundle-second"]

/-- The usage text printed on a missing or unrecognized scenario name
(build-transactions.ts:428-434). -/
def usageText : String :=
  "Please specify a test mode:\nvalid-single  - Test sending a single valid transaction\ninvalid-single - Test sending a single stale transaction\nvalid-bundle   - Test sending a bundle of valid transactions\ninvalid-bundle-first - Test sending a bundle of stale transactions with first tx invalid\ninvalid-bundle-second - Test sending a bundle of stale transactions with second tx invalid\n"

/-- Function `main` (build-transactions.ts:415-439): take `process.argv[2]`; when it
is absent, empty, or not one of the five valid names, print the usage text
and exit with code 1; otherwise run the scenario. -/
def mainStep (argv2 : Option String) : ProgramResult :=
  if !(jsTruthy argv2) || !(validModes.contains (argv2.getD "")) then
    .usageExit 1 usageText
  else
    .runScenario (argv2.getD "")

/-- Module evaluation (build-transactions.ts:19-24 then 441): read both
endpoint URLs from the environment; if either is missing (or empty) the
module-level `throw` aborts the process with exit code 1 before `main` ever
runs; otherwise `main` runs with `process.argv[2]`. -/
def startProgram (atlasServiceUrl rpcUrl argv2 : Option String) :
    ProgramResult :=
  if !(jsTruthy atlasServiceUrl) || !(jsTruthy rpcUrl) then
    .configError 1 "ATLAS_SERVICE_URL and RPC_URL must be set"
  else
    mainStep argv2

/- ### Keypair file round trip (setup-keypair.ts:26-39, build-transactions.ts:45-48) -/

/-- Big-endian decimal digits of `n`, fuel-bounded so the recursion is
structural; `decDigits` supplies enough fuel. -/
def decDigitsAux : ℕ → ℕ → List Char
  | 0, _ => []
  | f + 1, n => if n = 0 then [] else decDigitsAux f (n / 10) ++ [Char.ofNat (48 + n % 10)]

/-- The decimal representation JavaScript's number-to-string conversion
produces for a small natural number (as used by `Uint8Array.toString`). -/
def decDigits (n : ℕ) : List Char :=
  if n = 0 then ['0'] else decDigitsAux n n

/-- Join character groups with `','` — the element separator
`Array.prototype.join` inserts in `keypair.secretKey.toString()`. -/
def joinComma : List (List Char) → List Char
  | [] => []
  | [g] => g
  | g :: gs => g ++ ',' :: joinComma gs

/-- The file content `setupKeypair` writes (setup-keypair.ts:30-33):
`` `[$\x7b...\x7d]` `` around `secretKey.toString()`.  (The intervening
`Buffer.from` of the comma-joined string stringifies back to the same
string under template interpolation, so the file is exactly the bracketed
comma-joined decimal byte list.) -/
def writeKeypairFile (secret : List ℕ) : String :=
  String.mk ('[' :: (joinComma (secret.map decDigits) ++ [']']))

/-- Split a character list at every `','`, the inverse of `joinComma` on
comma-free groups. -/
def splitOnComma : List Char → List Char → List (List Char)
  | [], acc => [acc.reverse]
  | c :: rest, acc =>
      if c = ',' then acc.reverse :: splitOnComma rest []
      else splitOnComma rest (c :: acc)

/-- Parse a non-empty all-digit character group as a natural number. -/
def parseNatChars (cs : List Char) : Option ℕ :=
  if cs = [] then none
  else if cs.all (·.isDigit) then
    some (cs.foldl (fun a c => 10 * a + (c.toNat - 48)) 0)
  else none

/-- Character-level body of `parseJsonNatArray`. -/
def parseJsonChars : List Char → Option (List ℕ)
  | [] => none
  | c :: rest =>
      if c = '[' then
        match rest.getLast? with
        | some c2 =>
            if c2 = ']' then (splitOnComma rest.dropLast []).mapM parseNatChars
            else none
        | none => none
      else none

/-- Model of `JSON.parse` restricted to the flat integer-array texts the setup step
writes: a `'['`/`']'`-delimited, comma-separated list of decimal naturals. -/
def parseJsonNatArray (s : String) : Option (List ℕ) :=
  parseJsonChars s.data

/-- Function `loadKeypair` (build-transactions.ts:45-48): parse the JSON array,
coerce each element to a byte (`Uint8Array.from` reduces values mod 256),
and let `Keypair.fromSecretKey` accept exactly 64-byte secret keys.  The
keypair is modelled by its secret-key bytes; the ed25519 key arithmetic is
an external capability. -/
def loadKeypair (file : String) : Option (List ℕ) :=
  (parseJsonNatArray file).bind fun l =>
    let secretKey := l.map (· % 256)
    if secretKey.length = 64 then some secretKey else none

/- ### Auxiliary observation functions used by the theorems -/

/-- Whether `needle` occurs as a contiguous subsequence of the character
list (used to state that the usage text enumerates every scenario name). -/
def containsSeq (needle : List Char) : List Char → Bool
  | [] => needle.isEmpty
  | c :: rest => needle.isPrefixOf (c :: rest) || containsSeq needle rest

/-- Whether `hay` mentions `sub` as a contiguous substring. -/
def mentions (hay sub : String) : Bool := containsSeq sub.data hay.data

/-- The options object carried by either form of `params`. -/
def RpcParams.options : RpcParams → RpcOptions
  | .single _ o => o
  | .bundle _ o => o

/-- The reference-point binding pattern claimed for each scenario: stale
legs carry the fixed sentinel, valid legs the one live blockhash.  Stated
from the claim's words, to be compared with what `runTestBuild` produces. -/
def claimedBlockhashPattern : TestMode → String → List String
  | .validSingle, bh => [bh]
  | .invalidSingle, _ => [staleBlockhash]
  | .validBundle, bh => [bh, bh]
  | .invalidBundleFirst, bh => [staleBlockhash, bh]
  | .invalidBundleSecond, bh => [bh, staleBlockhash]

/- ### Helper lemmas -/

theorem toNat_char_digit {d : ℕ} (h : d < 10) :
    (Char.ofNat (48 + d)).toNat = 48 + d := by
  interval_cases d <;> decide

theorem isDigit_char_digit {d : ℕ} (h : d < 10) :
    (Char.ofNat (48 + d)).isDigit = true := by
  interval_cases d <;> decide

theorem char_digit_ne_comma {d : ℕ} (h : d < 10) :
    Char.ofNat (48 + d) ≠ ',' := by
  interval_cases d <;> decide

theorem decDigitsAux_all_digits :
    ∀ f n, ∀ c ∈ decDigitsAux f n, ∃ d, d < 10 ∧ c = Char.ofNat (48 + d) := by
  intro f
  induction f with
  | zero => intro n c hc; simp [decDigitsAux] at hc
  | succ f ih =>
    intro n c hc
    by_cases hn : n = 0
    · simp [decDigitsAux, hn] at hc
    · simp only [decDigitsAux, if_neg hn, List.mem_append, List.mem_singleton] at hc
      rcases hc with hc | hc
      · exact ih (n / 10) c hc
      · exact ⟨n % 10, Nat.mod_lt n (by omega), hc⟩

theorem foldl_decDigitsAux :
    ∀ f n, n ≤ f →
      (decDigitsAux f n).foldl (fun a c => 10 * a + (c.toNat - 48)) 0 = n := by
  intro f
  induction f with
  | zero => intro n hn; interval_cases n; simp [decDigitsAux]
  | succ f ih =>
    intro n hn
    by_cases hn0 : n = 0
    · simp [decDigitsAux, hn0]
    · have hdiv : n / 10 < n := Nat.div_lt_self (by omega) (by omega)
      simp only [decDigitsAux, if_neg hn0, List.foldl_append, List.foldl_cons,
        List.foldl_nil]
      rw [ih (n / 10) (by omega), toNat_char_digit (Nat.mod_lt n (by omega))]
      omega

theorem decDigitsAux_ne_nil {f n : ℕ} (hn : n ≠ 0) (hf : n ≤ f) :
    decDigitsAux f n ≠ [] := by
  cases f with
  | zero => omega
  | succ f => simp [decDigitsAux, if_neg hn]

theorem parseNatChars_decDigits (n : ℕ) :
    parseNatChars (decDigits n) = some n := by
  by_cases h : n = 0
  · subst h; decide
  · unfold decDigits
    rw [if_neg h]
    have hne := decDigitsAux_ne_nil h (le_refl n)
    have hall : (decDigitsAux n n).all (·.isDigit) = true := by
      rw [List.all_eq_true]
      intro c hc
      obtain ⟨d, hd, rfl⟩ := decDigitsAux_all_digits n n c hc
      exact isDigit_char_digit hd
    unfold parseNatChars
    rw [if_neg hne, if_pos hall]
    exact congrArg some (foldl_decDigitsAux n n (le_refl n))

theorem comma_not_mem_decDigits (b : ℕ) : ',' ∉ decDigits b := by
  unfold decDigits
  by_cases h : b = 0
  · simp [h]
  · rw [if_neg h]
    intro hmem
    obtain ⟨d, hd, hc⟩ := decDigitsAux_all_digits b b ',' hmem
    exact char_digit_ne_comma hd hc.symm

theorem splitOnComma_append :
    ∀ g : List Char, ',' ∉ g → ∀ l acc : List Char,
      splitOnComma (g ++ l) acc = splitOnComma l (g.reverse ++ acc) := by
  intro g
  induction g with
  | nil => intro _ l acc; simp
  | cons c g ih =>
    intro hg l acc
    have hc : ¬(c = ',') := fun hcc => hg (hcc ▸ List.mem_cons_self c g)
    simp only [List.cons_append, splitOnComma, if_neg hc, List.append_eq]
    rw [ih (fun hm => hg (List.mem_cons_of_mem c hm)) l (c :: acc)]
    simp

theorem splitOnComma_joinComma :
    ∀ gs : List (List Char), gs ≠ [] → (∀ g ∈ gs, ',' ∉ g) →
      splitOnComma (joinComma gs) [] = gs := by
  intro gs
  induction gs with
  | nil => intro h; exact absurd rfl h
  | cons g gs ih =>
    intro _ hnc
    cases gs with
    | nil =>
      have hg : ',' ∉ g := hnc g (List.mem_cons_self g [])
      have h1 := splitOnComma_append g hg [] []
      simpa [joinComma, splitOnComma] using h1
    | cons g2 gs2 =>
      have hg : ',' ∉ g := hnc g (List.mem_cons_self g _)
      show splitOnComma (g ++ ',' :: joinComma (g2 :: gs2)) [] = g :: g2 :: gs2
      rw [splitOnComma_append g hg (',' :: joinComma (g2 :: gs2)) []]
      have hrest := ih (by simp) (fun x hx => hnc x (List.mem_cons_of_mem g hx))
      simp [splitOnComma, hrest]

theorem mapM_parseNatChars_decDigits :
    ∀ l : List ℕ, (l.map decDigits).mapM parseNatChars = some l := by
  intro l
  induction l with
  | nil => rfl
  | cons b l ih =>
    rw [List.map_cons, List.mapM_cons, parseNatChars_decDigits, ih]
    rfl

theorem map_mod_256_eq_self :
    ∀ l : List ℕ, (∀ b ∈ l, b < 256) → l.map (· % 256) = l := by
  intro l hl
  induction l with
  | nil => rfl
  | cons b l ih =>
    simp only [List.map_cons]
    rw [Nat.mod_eq_of_lt (hl b (List.mem_cons_self b l)),
      ih (fun x hx => hl x (List.mem_cons_of_mem b hx))]

theorem parseJsonChars_bracket (inner : List Char) :
    parseJsonChars ('[' :: inner.concat ']') =
      (splitOnComma inner []).mapM parseNatChars := by
  simp only [parseJsonChars, List.getLast?_concat, List.dropLast_concat]
  simp

theorem loadKeypair_writeKeypairFile (secret : List ℕ)
    (hlen : secret.length = 64) (hbytes : ∀ b ∈ secret, b < 256) :
    loadKeypair (writeKeypairFile secret) = some secret := by
  have hne : secret ≠ [] := by
    intro h; rw [h] at hlen; simp at hlen
  have hgs : secret.map decDigits ≠ [] := by simpa using hne
  have hnc : ∀ g ∈ secret.map decDigits, ',' ∉ g := by
    intro g hg
    obtain ⟨b, _, rfl⟩ := List.mem_map.mp hg
    exact comma_not_mem_decDigits b
  have h1 : writeKeypairFile secret =
      String.mk ('[' :: (joinComma (secret.map decDigits)).concat ']') := by
    unfold writeKeypairFile
    rw [List.concat_eq_append]
  unfold loadKeypair parseJsonNatArray
  rw [h1]
  show (parseJsonChars ('[' :: (joinComma (secret.map decDigits)).concat ']')).bind _ = _
  rw [parseJsonChars_bracket, splitOnComma_joinComma _ hgs hnc,
    mapM_parseNatChars_decDigits]
  show (if (secret.map (· % 256)).length = 64 then some (secret.map (· % 256))
    else none) = some secret
  rw [map_mod_256_eq_self secret hbytes]
  simp [hlen]

set_option maxRecDepth 8000 in
theorem amountValidSingle_eq : amountValidSingle = some 10000000 := by decide

set_option maxRecDepth 8000 in
theorem amountInvalidSingle_eq : amountInvalidSingle = some 30000000 := by decide

set_option maxRecDepth 8000 in
theorem amountBundle1_eq : amountBundle1 = some 10000000 := by decide

set_option maxRecDepth 8000 in
theorem amountBundle2_eq : amountBundle2 = some 20000000 := by decide

/- ### Claim theorems -/

/-- C3, counterexample.  The claim says every transfer amount is computed
without any floating-point arithmetic and no amount value is produced by a
lossy float computation.  In the code the `invalid-single` amount is
`BigInt(LAMPORTS_PER_SOL * 0.03)`, a binary64 multiplication: the stored
double for the literal `0.03` already differs from `3/100`, and the exact
product of the two double operands is not `30000000` — the multiplication
itself rounds (lossily) onto `30000000`.  So the amount is produced by
lossy floating-point arithmetic. -/
theorem c3_counterexample_float_rounding :
    amountInvalidSingle = some 30000000 ∧
    ¬ lit003.eqFrac 3 100 ∧
    ¬ (Dbl.mk (lamportsPerSol.m * lit003.m) (lamportsPerSol.s + lit003.s)).eqFrac
        30000000 1 := by
  refine ⟨?_, ?_, ?_⟩
  · exact amountInvalidSingle_eq
  · set_option maxRecDepth 8000 in decide
  · set_option maxRecDepth 8000 in decide

/-- C1.  For `invalid-bundle-second` the harness in fact declares sender
delta `-(a1 + a2 + 2 * fee) = -30010000` and recipient deltas
`[+a1, +a2] = [10000000, 20000000]` (build-transactions.ts:287-289) — not
the claimed `-(a1 + one fee)` for the sender and `0` for recipient 2, even
though the same scenario asserts `result.length should be 1`. -/
theorem c1_invalid_bundle_second_expected_deltas (senderPk : Pubkey)
    (recipientPk : ℕ → Pubkey) (recentBlockhash : String) :
    (runTestBuild .invalidBundleSecond senderPk recipientPk
          recentBlockhash).map
        (fun st => (st.expectedSenderChange, st.expectedRecipientChanges)) =
      some (-30010000, [10000000, 20000000]) ∧
    (-30010000 : ℤ) ≠ -(10000000 + txnFee) ∧
    (20000000 : ℤ) ≠ 0 := by
  refine ⟨?_, by norm_num [txnFee], by norm_num⟩
  simp [runTestBuild, amountBundle1_eq, amountBundle2_eq, txnFee]

/-- C2.  For the zero-settlement scenarios the harness in fact declares
nonzero expected deltas: `invalid-single` gets sender `-30005000` and
recipient `+30000000` (build-transactions.ts:225-226), `invalid-bundle-first`
gets sender `-30010000` and recipients `[+10000000, +20000000]`
(build-transactions.ts:264-266) — not the claimed all-zero deltas. -/
theorem c2_zero_settle_scenarios_expected_deltas (senderPk : Pubkey)
    (recipientPk : ℕ → Pubkey) (recentBlockhash : String) :
    (runTestBuild .invalidSingle senderPk recipientPk recentBlockhash).map
        (fun st => (st.expectedSenderChange, st.expectedRecipientChanges)) =
      some (-30005000, [30000000]) ∧
    (runTestBuild .invalidBundleFirst senderPk recipientPk
          recentBlockhash).map
        (fun st => (st.expectedSenderChange, st.expectedRecipientChanges)) =
      some (-30010000, [10000000, 20000000]) ∧
    (-30005000 : ℤ) ≠ 0 ∧ (30000000 : ℤ) ≠ 0 := by
  refine ⟨?_, ?_, by norm_num, by norm_num⟩
  · simp [runTestBuild, amountInvalidSingle_eq, txnFee]
  · simp [runTestBuild, amountBundle1_eq, amountBundle2_eq, txnFee]

/-- C3, amended.  Every transfer amount the scenarios pass to the builder
is a non-negative integer and the computation never fails; the amounts are
produced by binary64 multiplication of a fractional literal with `1e9`,
which is lossy en route (see the counterexample) but happens to round to
exactly the intended integers `10^7`, `2*10^7`, `3*10^7`, so the `BigInt`
conversion always succeeds. -/
theorem c3_amounts_integral_and_total (mode : TestMode) (senderPk : Pubkey)
    (recipientPk : ℕ → Pubkey) (recentBlockhash : String) :
    amountValidSingle = some 10000000 ∧
    amountInvalidSingle = some 30000000 ∧
    amountBundle1 = some 10000000 ∧
    amountBundle2 = some 20000000 ∧
    (runTestBuild mode senderPk recipientPk recentBlockhash).isSome = true := by
  refine ⟨amountValidSingle_eq, amountInvalidSingle_eq, amountBundle1_eq,
    amountBundle2_eq, ?_⟩
  cases mode <;>
    simp [runTestBuild, amountValidSingle_eq, amountInvalidSingle_eq,
      amountBundle1_eq, amountBundle2_eq]

/-- C9.  In every scenario the legs marked stale are bound to the fixed
sentinel (the string of 32 `'1'` characters) and every valid leg to the
single live blockhash fetched once before building; no other reference
point appears in any built transaction. -/
theorem c9_reference_point_binding (mode : TestMode) (senderPk : Pubkey)
    (recipientPk : ℕ → Pubkey) (liveBlockhash : String) :
    (runTestBuild mode senderPk recipientPk liveBlockhash).map
        (fun st => st.transactions.map (fun tx => tx.message.recentBlockhash)) =
      some (claimedBlockhashPattern mode liveBlockhash) ∧
    staleBlockhash.length = 32 ∧
    staleBlockhash.data.all (· = '1') = true := by
  refine ⟨?_, by decide, by decide⟩
  cases mode <;>
    simp [runTestBuild, amountValidSingle_eq, amountInvalidSingle_eq,
      amountBundle1_eq, amountBundle2_eq, claimedBlockhashPattern,
      createTestTransaction]

/-- C10.  Every scenario's expected-delta computation uses the single fee
constant `txnFee = 5000` and charges the expected sender delta the sum of
the per-recipient amounts plus `5000` once per transaction built, whichever
scenario runs. -/
theorem c10_fee_constant_per_built_transaction (mode : TestMode)
    (senderPk : Pubkey) (recipientPk : ℕ → Pubkey) (recentBlockhash : String) :
    txnFee = 5000 ∧
    ∃ st : ScenarioSetup,
      runTestBuild mode senderPk recipientPk recentBlockhash = some st ∧
      st.expectedSenderChange =
        -(st.expectedRecipientChanges.sum + txnFee * st.transactions.length) := by
  refine ⟨rfl, ?_⟩
  cases mode <;>
    simp [runTestBuild, amountValidSingle_eq, amountInvalidSingle_eq,
      amountBundle1_eq, amountBundle2_eq, txnFee]

/-- C4.  The keypair file holds the raw secret-key bytes as a JSON array of
integers: for every 64-byte secret key, writing the file as the setup step
does and loading it as the harness does (parse the JSON array, coerce to
bytes, accept a 64-byte secret key) returns exactly the bytes that were
saved — the write-then-load round trip is the identity on the secret key. -/
theorem c4_keypair_write_load_roundtrip (secret : List ℕ)
    (hlen : secret.length = 64) (hbytes : ∀ b ∈ secret, b < 256) :
    loadKeypair (writeKeypairFile secret) = some secret :=
  loadKeypair_writeKeypairFile secret hlen hbytes

theorem c4_keypair_write_load_roundtrip_witness :
    (List.range 64).length = 64 ∧
    loadKeypair (writeKeypairFile (List.range 64)) = some (List.range 64) :=
  ⟨by decide, c4_keypair_write_load_roundtrip (List.range 64) (by decide)
    (by decide)⟩

/-- C5.  Every string outside the five scenario names — and a missing
argument — makes `main` print the usage text (which enumerates all five
valid names) and exit with code 1 without running a scenario (the only
constructor that reaches the network); each of the five valid names
proceeds to run that scenario. -/
theorem c5_scenario_name_validation :
    (∀ s : String, s ∉ validModes →
      mainStep (some s) = .usageExit 1 usageText) ∧
    mainStep none = .usageExit 1 usageText ∧
    (∀ s ∈ validModes, mainStep (some s) = .runScenario s) ∧
    (∀ s ∈ validModes, mentions usageText s = true) ∧
    (1 : ℕ) ≠ 0 := by
  refine ⟨?_, rfl, ?_, by set_option maxRecDepth 8000 in decide, by decide⟩
  · intro s hs
    by_cases hempty : s = ""
    · subst hempty; rfl
    · simp [mainStep, jsTruthy, hempty, hs]
  · intro s hsmem
    have hne : s ≠ "" := by
      intro h; subst h; simp [validModes] at hsmem
    simp [mainStep, jsTruthy, hne, hsmem]

theorem c5_scenario_name_validation_witness :
    mainStep (some "no-such-mode") = .usageExit 1 usageText :=
  c5_scenario_name_validation.1 "no-such-mode" (by decide)

/-- C6.  If either required endpoint URL is absent from the environment,
module evaluation aborts with the fatal configuration error (process exit
code 1) before `main` runs: the result is the `configError` outcome, never
`runScenario`, so no transaction is built, signed, or submitted. -/
theorem c6_missing_endpoint_url_fatal (atlas rpc argv2 : Option String)
    (h : atlas = none ∨ rpc = none) :
    startProgram atlas rpc argv2 =
      .configError 1 "ATLAS_SERVICE_URL and RPC_URL must be set" := by
  rcases h with rfl | rfl
  · rfl
  · cases atlas with
    | none => rfl
    | some s => simp [startProgram, jsTruthy]

theorem c6_missing_endpoint_url_fatal_witness :
    startProgram none (some "http://localhost:8899") (some "valid-single") =
      .configError 1 "ATLAS_SERVICE_URL and RPC_URL must be set" :=
  c6_missing_endpoint_url_fatal none (some "http://localhost:8899")
    (some "valid-single") (Or.inl rfl)

/-- C7.  For every sender, recipient, amount and reference point, the built
transaction references exactly the three accounts sender, recipient, system
program in that order; it has exactly one compiled instruction whose
program index (2) names the system program and whose operand indices are
the sender (index 0: writable and signer) and the recipient (index 1:
writable, not a signer); it requires exactly one signature; and it carries
the given reference point unchanged. -/
theorem c7_built_transaction_shape (sender recipient : Pubkey) (amount : ℕ)
    (referencePoint : String) :
    ((createTestTransaction sender recipient amount
        referencePoint).message.staticAccountKeys =
      [sender, recipient, systemProgramId]) ∧
    ((createTestTransaction sender recipient amount
        referencePoint).message.compiledInstructions =
      [⟨2, [0, 1], transferInstructionData amount⟩]) ∧
    ((createTestTransaction sender recipient amount
        referencePoint).message.staticAccountKeys.get? 2 =
      some systemProgramId) ∧
    ((createTestTransaction sender recipient amount
        referencePoint).message.header.numRequiredSignatures = 1) ∧
    ((createTestTransaction sender recipient amount
        referencePoint).message.recentBlockhash = referencePoint) ∧
    ((createTestTransaction sender recipient amount
        referencePoint).message.isSigner 0 = true) ∧
    ((createTestTransaction sender recipient amount
        referencePoint).message.isWritable 0 = true) ∧
    ((createTestTransaction sender recipient amount
        referencePoint).message.isSigner 1 = false) ∧
    ((createTestTransaction sender recipient amount
        referencePoint).message.isWritable 1 = true) ∧
    ((createTestTransaction sender recipient amount
        referencePoint).message.isSigner 2 = false) ∧
    ((createTestTransaction sender recipient amount
        referencePoint).message.isWritable 2 = false) :=
  ⟨rfl, rfl, rfl, rfl, rfl, rfl, rfl, rfl, rfl, rfl, rfl⟩

/-- C8.  Both relay operations issue a JSON-RPC-shaped POST body with
`jsonrpc = "2.0"`, the fixed numeric id 1, method `sendTransaction`
(resp. `sendTransactionBundle`), and params equal to the encoded
payload(s) followed by the options object with `skipPreflight = true` and
`encoding = "base58"` — so pre-submission simulation is always disabled. -/
theorem c8_rpc_request_shape (encode : VersionedTransaction → String)
    (tx : VersionedTransaction) (txs : List VersionedTransaction) :
    sendTransactionRequest encode tx =
      ⟨"2.0", 1, "sendTransaction",
        .single (encode tx) ⟨true, "base58"⟩⟩ ∧
    sendTransactionBundleRequest encode txs =
      ⟨"2.0", 1, "sendTransactionBundle",
        .bundle (txs.map encode) ⟨true, "base58"⟩⟩ ∧
    (sendTransactionRequest encode tx).params.options.skipPreflight = true ∧
    (sendTransactionBundleRequest encode txs).params.options.skipPreflight =
      true :=
  ⟨rfl, rfl, rfl, rfl⟩
